import Mathlib

/-!
Verification of the room connection registry and broadcast fan-out engine
of the poln-server WebSocket handlers (`connect`, `disconnect`, `joinLeague`,
`timerUpdate`).

The DynamoDB connections table is modelled as a list of connection records
(`Registry`); a `QueryCommand` on a league id is `listRoom`, a `PutCommand`
is the keyed upsert `putRecord`, and a `DeleteCommand` is a keyed filter.
The API Gateway push transport is modelled as a function from connection id
to a delivery outcome (`SendOutcome`), and the store's delete success as a
boolean function (`deleteOk`); both are fields of `BroadcastEnv`.  Handlers
return the `{statusCode, body}` pair the Lambda returns (`ApiResult`);
`timerUpdate` additionally exposes the observable fan-out behaviour: the
list of connection ids a send was attempted to, the resulting registry, and
the derived delivered/pruned counts.
-/

namespace PolnServer

/-- A row of the `league-connections` table, as written by `joinLeague`. -/
structure ConnectionRecord where
  leagueId : String
  connectionId : String
  sessionId : String
  isCreator : Bool
  connectedAt : String
deriving Repr, DecidableEq

/-- The connections table: the set of connection records, as a list. -/
abbrev Registry := List ConnectionRecord

/-- The `TimerState` interface of the handler module. -/
structure TimerState where
  timerEndTime : Option Int
  timerRemainingSeconds : Int
  timerPresetMinutes : Int
  timerIsRunning : Bool
deriving Repr, DecidableEq

/-- Outcome of one `PostToConnectionCommand`: success, HTTP 410 (the
endpoint is permanently gone), or any other error (transient). -/
inductive SendOutcome where
  | ok
  | gone
  | transient
deriving Repr, DecidableEq

/-- The `{statusCode, body}` result a handler returns to API Gateway. -/
structure ApiResult where
  statusCode : Nat
  body : String
deriving Repr, DecidableEq

/-- Parsed JSON body of a `joinLeague` request; each field may be absent. -/
structure JoinBody where
  leagueId : Option String
  sessionId : Option String
  isCreator : Option Bool
deriving Repr, DecidableEq

/-- Parsed JSON body of a `timerUpdate` request; each field may be absent. -/
structure TimerUpdateBody where
  leagueId : Option String
  timerState : Option TimerState
deriving Repr, DecidableEq

/-- The external collaborators of one `timerUpdate` call: the push
transport's outcome per connection id, and whether the store delete of a
connection id succeeds. -/
structure BroadcastEnv where
  transport : String → SendOutcome
  deleteOk : String → Bool

/-- Observable result of one `timerUpdate` call: the API response, the
registry after the call, the connection ids a delivery was attempted to,
and the derived delivered/pruned counts. -/
structure BroadcastResult where
  response : ApiResult
  registry : Registry
  attempts : List String
  delivered : Nat
  pruned : Nat
deriving Repr

/-- JavaScript falsiness of an optional string field: absent or empty. -/
def strFalsy : Option String → Bool
  | none => true
  | some s => decide (s = "")

/-- The `QueryCommand` on `leagueId`: all records of one league. -/
def listRoom (reg : Registry) (leagueId : String) : List ConnectionRecord :=
  reg.filter (fun r => decide (r.leagueId = leagueId))

/-- The `PutCommand`: upsert keyed by `(leagueId, connectionId)` — replace
the record with this key if present, append otherwise. -/
def putRecord (reg : Registry) (r : ConnectionRecord) : Registry :=
  if reg.any (fun x => decide (x.leagueId = r.leagueId ∧ x.connectionId = r.connectionId)) then
    reg.map (fun x =>
      if x.leagueId = r.leagueId ∧ x.connectionId = r.connectionId then r else x)
  else
    reg ++ [r]

/-- The `$connect` handler: logs and returns 200; no registry access. -/
def connect (reg : Registry) (connectionId : String) : ApiResult × Registry :=
  (⟨200, "Connected"⟩, reg)

/-- The `$disconnect` handler: logs and returns 200; the source performs no
registry deletion (its comments defer cleanup to failed deliveries). -/
def disconnect (reg : Registry) (connectionId : String) : ApiResult × Registry :=
  (⟨200, "Disconnected"⟩, reg)

/-- The `joinLeague` handler: validate `leagueId`/`sessionId`, then upsert
the connection record (`isCreator` defaults to `false`). -/
def joinLeague (reg : Registry) (connectionId : String) (body : JoinBody)
    (now : String) : ApiResult × Registry :=
  if strFalsy body.leagueId || strFalsy body.sessionId then
    (⟨400, "leagueId and sessionId are required"⟩, reg)
  else
    (⟨200, "Joined league"⟩,
      putRecord reg
        { leagueId := body.leagueId.getD ""
          connectionId := connectionId
          sessionId := body.sessionId.getD ""
          isCreator := body.isCreator.getD false
          connectedAt := now })

/-- The fan-out loop of `timerUpdate` (the `connections.map` over send
promises joined by `Promise.all`): skip the originator, send to every other
record; a 410 triggers a `DeleteCommand` on that record's key; a failed
delete rejects the joined promise, so the outer catch returns 500. -/
def fanOut (reg : Registry) (env : BroadcastEnv) (connectionId leagueId : String) :
    BroadcastResult :=
  let connections := listRoom reg leagueId
  let targets := connections.filter (fun c => decide (¬ c.connectionId = connectionId))
  let goneTargets := targets.filter (fun c => decide (env.transport c.connectionId = SendOutcome.gone))
  let prunedIds := (goneTargets.filter (fun c => env.deleteOk c.connectionId)).map
    (fun c => c.connectionId)
  let pruneFailed := goneTargets.any (fun c => ! env.deleteOk c.connectionId)
  { response :=
      if pruneFailed then ⟨500, "Failed to broadcast timer update"⟩
      else ⟨200, "Timer update broadcast"⟩
    registry := reg.filter (fun r =>
      decide (¬ (r.leagueId = leagueId ∧ r.connectionId ∈ prunedIds)))
    attempts := targets.map (fun c => c.connectionId)
    delivered := (targets.filter (fun c =>
      decide (env.transport c.connectionId = SendOutcome.ok))).length
    pruned := prunedIds.length }

/-- The `timerUpdate` handler: validate `leagueId`/`timerState`, query the
league's connections, require the sender's record to exist with
`isCreator`, then fan out the payload. -/
def timerUpdate (reg : Registry) (env : BroadcastEnv) (connectionId : String)
    (body : TimerUpdateBody) : BroadcastResult :=
  if strFalsy body.leagueId || body.timerState.isNone then
    { response := ⟨400, "leagueId and timerState are required"⟩
      registry := reg, attempts := [], delivered := 0, pruned := 0 }
  else
    let leagueId := body.leagueId.getD ""
    let connections := listRoom reg leagueId
    match connections.find? (fun c => decide (c.connectionId = connectionId)) with
    | none =>
      { response := ⟨403, "Only the creator can update the timer"⟩
        registry := reg, attempts := [], delivered := 0, pruned := 0 }
    | some s =>
      if ! s.isCreator then
        { response := ⟨403, "Only the creator can update the timer"⟩
          registry := reg, attempts := [], delivered := 0, pruned := 0 }
      else
        fanOut reg env connectionId leagueId

/-! ### Concrete data used by witnesses and counterexamples -/

/-- A creator record in room `abc123`. -/
def creatorRec : ConnectionRecord :=
  { leagueId := "abc123", connectionId := "C1", sessionId := "S1"
    isCreator := true, connectedAt := "t0" }

/-- A non-creator record in room `abc123`. -/
def memberRec : ConnectionRecord :=
  { leagueId := "abc123", connectionId := "C2", sessionId := "S2"
    isCreator := false, connectedAt := "t0" }

/-- A second non-creator record in room `abc123`. -/
def memberRec2 : ConnectionRecord :=
  { leagueId := "abc123", connectionId := "C3", sessionId := "S3"
    isCreator := false, connectedAt := "t0" }

/-- An environment in which every send succeeds. -/
def okEnv : BroadcastEnv := ⟨fun _ => SendOutcome.ok, fun _ => true⟩

/-- A sample timer-state payload. -/
def tsSample : TimerState :=
  { timerEndTime := some 1700000000000, timerRemainingSeconds := 300
    timerPresetMinutes := 5, timerIsRunning := true }

/-! ### Helper lemmas -/

theorem mem_listRoom {reg : Registry} {L : String} {r : ConnectionRecord} :
    r ∈ listRoom reg L ↔ r ∈ reg ∧ r.leagueId = L := by
  simp [listRoom]

/-! ### C5: validation failure -/

/-- C5: if `leagueId` is missing or empty, or `timerState` is missing, the
broadcast call fails with 400 before any delivery attempt: the registry is
returned unchanged, no send is attempted, and the counts are zero. -/
theorem timerUpdate_missing_field_rejected (reg : Registry) (env : BroadcastEnv)
    (cid : String) (body : TimerUpdateBody)
    (h : strFalsy body.leagueId = true ∨ body.timerState = none) :
    timerUpdate reg env cid body =
      { response := ⟨400, "leagueId and timerState are required"⟩
        registry := reg, attempts := [], delivered := 0, pruned := 0 } := by
  have hcond : (strFalsy body.leagueId || body.timerState.isNone) = true := by
    rcases h with h | h <;> simp [h]
  simp [timerUpdate, hcond]

/-- C5 witness: a concrete request with no `timerState` is rejected with 400
and no side effect. -/
theorem timerUpdate_missing_field_rejected_witness :
    timerUpdate [creatorRec] okEnv "C1" ⟨some "abc123", none⟩ =
      { response := ⟨400, "leagueId and timerState are required"⟩
        registry := [creatorRec], attempts := [], delivered := 0, pruned := 0 } :=
  timerUpdate_missing_field_rejected [creatorRec] okEnv "C1" ⟨some "abc123", none⟩
    (Or.inr rfl)

/-! ### C2: non-creator broadcast rejected -/

/-- C2: if the originating endpoint has no record in the room or its record
has `isCreator = false`, the broadcast fails with 403, makes zero delivery
attempts, and leaves the registry unchanged. -/
theorem timerUpdate_nonCreator_rejected (reg : Registry) (env : BroadcastEnv)
    (cid : String) (L : String) (ts : TimerState) (hL : L ≠ "")
    (hauth : ∀ s ∈ listRoom reg L, s.connectionId = cid → s.isCreator = false) :
    timerUpdate reg env cid ⟨some L, some ts⟩ =
      { response := ⟨403, "Only the creator can update the timer"⟩
        registry := reg, attempts := [], delivered := 0, pruned := 0 } := by
  have hcond : (strFalsy (some L) || (Option.isNone (some ts))) = false := by
    simp [strFalsy, hL]
  unfold timerUpdate
  simp only [hcond, Bool.false_eq_true, if_false, Option.getD_some]
  cases hf : (listRoom reg L).find? (fun c => decide (c.connectionId = cid)) with
  | none => rfl
  | some s =>
    have hmem := List.mem_of_find?_eq_some hf
    have hid : s.connectionId = cid := by
      have := List.find?_some hf
      simpa using this
    have : s.isCreator = false := hauth s hmem hid
    simp [this]

/-- C2 witness: a non-creator endpoint's broadcast in a concrete two-member
room is rejected with 403 and no delivery attempt. -/
theorem timerUpdate_nonCreator_rejected_witness :
    timerUpdate [creatorRec, memberRec] okEnv "C2" ⟨some "abc123", some tsSample⟩ =
      { response := ⟨403, "Only the creator can update the timer"⟩
        registry := [creatorRec, memberRec], attempts := [], delivered := 0, pruned := 0 } :=
  timerUpdate_nonCreator_rejected [creatorRec, memberRec] okEnv "C2" "abc123" tsSample
    (by decide) (by decide)

theorem timerUpdate_creator (reg : Registry) (env : BroadcastEnv) (cid L : String)
    (ts : TimerState) (s : ConnectionRecord) (hL : L ≠ "")
    (hfind : (listRoom reg L).find? (fun c => decide (c.connectionId = cid)) = some s)
    (hc : s.isCreator = true) :
    timerUpdate reg env cid ⟨some L, some ts⟩ = fanOut reg env cid L := by
  have hcond : (strFalsy (some L) || (Option.isNone (some ts))) = false := by
    simp [strFalsy, hL]
  unfold timerUpdate
  simp only [hcond, Bool.false_eq_true, if_false, Option.getD_some, hfind, hc]
  simp

theorem length_filter_add_length_filter_not (l : List α) (p : α → Bool) :
    (l.filter p).length + (l.filter (fun a => ! p a)).length = l.length := by
  induction l with
  | nil => rfl
  | cons x xs ih =>
    by_cases h : p x = true <;> simp [List.filter_cons, h] <;> omega

theorem filter_id_eq_singleton {l : List ConnectionRecord} {cid : String}
    {s : ConnectionRecord}
    (hnd : l.Pairwise (fun a b => a.connectionId ≠ b.connectionId))
    (hfind : l.find? (fun c => decide (c.connectionId = cid)) = some s) :
    l.filter (fun c => decide (c.connectionId = cid)) = [s] := by
  induction l with
  | nil => simp at hfind
  | cons x xs ih =>
    rcases List.pairwise_cons.mp hnd with ⟨hx, hxs⟩
    by_cases h : x.connectionId = cid
    · have hs : s = x := by
        rw [List.find?_cons_of_pos _ (by simpa using h)] at hfind
        exact (Option.some.inj hfind).symm
      subst hs
      rw [List.filter_cons_of_pos (by simpa using h)]
      have hnil : xs.filter (fun c => decide (c.connectionId = cid)) = [] := by
        rw [List.filter_eq_nil_iff]
        intro a ha
        simp only [decide_eq_true_eq]
        intro hac
        exact hx a ha (by rw [h, hac])
      rw [hnil]
    · rw [List.find?_cons_of_neg _ (by simpa using h)] at hfind
      rw [List.filter_cons_of_neg (by simpa using h)]
      exact ih hxs hfind

/-! ### C1: fan-out targets exactly the other endpoints -/

/-- C1: in a room whose records have pairwise distinct connection ids and
whose listing contains the creator originator's record, a creator-originated
broadcast attempts delivery to exactly the records whose connection id
differs from the originator's — N−1 attempts for N records — and never to
the originator's own endpoint. -/
theorem timerUpdate_targets_exact (reg : Registry) (env : BroadcastEnv) (cid L : String)
    (ts : TimerState) (s : ConnectionRecord) (hL : L ≠ "")
    (hnd : (listRoom reg L).Pairwise (fun a b => a.connectionId ≠ b.connectionId))
    (hfind : (listRoom reg L).find? (fun c => decide (c.connectionId = cid)) = some s)
    (hc : s.isCreator = true) :
    (timerUpdate reg env cid ⟨some L, some ts⟩).attempts =
      ((listRoom reg L).filter (fun c => decide (¬ c.connectionId = cid))).map
        (fun c => c.connectionId) ∧
    (timerUpdate reg env cid ⟨some L, some ts⟩).attempts.length =
      (listRoom reg L).length - 1 ∧
    cid ∉ (timerUpdate reg env cid ⟨some L, some ts⟩).attempts := by
  rw [timerUpdate_creator reg env cid L ts s hL hfind hc]
  refine ⟨rfl, ?_, ?_⟩
  · have hsing := filter_id_eq_singleton hnd hfind
    have hsplit := length_filter_add_length_filter_not (listRoom reg L)
      (fun c => decide (c.connectionId = cid))
    have h1 : ((listRoom reg L).filter (fun c => decide (c.connectionId = cid))).length = 1 := by
      rw [hsing]; rfl
    show (((listRoom reg L).filter (fun c => decide (¬ c.connectionId = cid))).map
      (fun c => c.connectionId)).length = (listRoom reg L).length - 1
    simp only [List.length_map, decide_not]
    omega
  · intro hmem
    simp only [fanOut, List.mem_map, List.mem_filter, decide_eq_true_eq] at hmem
    obtain ⟨c, ⟨_, hne⟩, heq⟩ := hmem
    exact hne heq

/-- C1 witness: in the three-member room `abc123` with creator `C1`, a
broadcast by `C1` attempts exactly two deliveries and never targets `C1`. -/
theorem timerUpdate_targets_exact_witness :
    (timerUpdate [creatorRec, memberRec, memberRec2] okEnv "C1"
        ⟨some "abc123", some tsSample⟩).attempts.length = 2 ∧
    "C1" ∉ (timerUpdate [creatorRec, memberRec, memberRec2] okEnv "C1"
        ⟨some "abc123", some tsSample⟩).attempts := by
  have h := timerUpdate_targets_exact [creatorRec, memberRec, memberRec2] okEnv
    "C1" "abc123" tsSample creatorRec (by decide) (by decide) (by decide) (by decide)
  exact ⟨by rw [h.2.1]; rfl, h.2.2⟩

/-! ### C4: result carries no counts (corrected) -/

/-- C4 counterexample: two broadcasts with different delivered counts (1 in
a two-member room, 0 in a creator-only room) return the identical
caller-visible result, so the result returned to the caller does not carry
the `{delivered, pruned}` counts. -/
theorem timerUpdate_counts_not_returned_cex :
    (timerUpdate [creatorRec, memberRec] okEnv "C1"
        ⟨some "abc123", some tsSample⟩).delivered = 1 ∧
    (timerUpdate [creatorRec] okEnv "C1"
        ⟨some "abc123", some tsSample⟩).delivered = 0 ∧
    (timerUpdate [creatorRec, memberRec] okEnv "C1"
        ⟨some "abc123", some tsSample⟩).response =
      (timerUpdate [creatorRec] okEnv "C1"
        ⟨some "abc123", some tsSample⟩).response := by
  refine ⟨by decide, by decide, by decide⟩

/-- C4 amended: a successful broadcast returns the constant success
response `200 / "Timer update broadcast"`, which carries no delivered or
pruned counts; in a room where only the creator is connected the call
succeeds with zero delivery attempts, `delivered = 0` and `pruned = 0`. -/
theorem timerUpdate_only_creator_succeeds (reg : Registry) (env : BroadcastEnv)
    (cid L : String) (ts : TimerState) (s : ConnectionRecord) (hL : L ≠ "")
    (hroom : listRoom reg L = [s]) (hsid : s.connectionId = cid)
    (hc : s.isCreator = true) :
    (timerUpdate reg env cid ⟨some L, some ts⟩).response =
      ⟨200, "Timer update broadcast"⟩ ∧
    (timerUpdate reg env cid ⟨some L, some ts⟩).delivered = 0 ∧
    (timerUpdate reg env cid ⟨some L, some ts⟩).pruned = 0 ∧
    (timerUpdate reg env cid ⟨some L, some ts⟩).attempts = [] := by
  have hfind : (listRoom reg L).find? (fun c => decide (c.connectionId = cid)) = some s := by
    rw [hroom]; simp [hsid]
  rw [timerUpdate_creator reg env cid L ts s hL hfind hc]
  unfold fanOut
  rw [hroom]
  simp [hsid]

/-- C4 amended witness: in the concrete creator-only room, the broadcast
succeeds with zero delivered/pruned and no attempts. -/
theorem timerUpdate_only_creator_succeeds_witness :
    (timerUpdate [creatorRec] okEnv "C1" ⟨some "abc123", some tsSample⟩).response =
      ⟨200, "Timer update broadcast"⟩ ∧
    (timerUpdate [creatorRec] okEnv "C1" ⟨some "abc123", some tsSample⟩).delivered = 0 ∧
    (timerUpdate [creatorRec] okEnv "C1" ⟨some "abc123", some tsSample⟩).pruned = 0 ∧
    (timerUpdate [creatorRec] okEnv "C1" ⟨some "abc123", some tsSample⟩).attempts = [] :=
  timerUpdate_only_creator_succeeds [creatorRec] okEnv "C1" "abc123" tsSample creatorRec
    (by decide) (by decide) (by decide) (by decide)

/-- An environment in which delivery to `C3` reports 410 and every store
delete succeeds. -/
def goneC3Env : BroadcastEnv :=
  ⟨fun i => if i = "C3" then SendOutcome.gone else SendOutcome.ok, fun _ => true⟩

/-- An environment in which delivery to `C2` fails transiently and the rest
succeed. -/
def transientC2Env : BroadcastEnv :=
  ⟨fun i => if i = "C2" then SendOutcome.transient else SendOutcome.ok, fun _ => true⟩

/-- An environment in which every delivery reports 410 and every store
delete fails. -/
def goneBadDeleteEnv : BroadcastEnv :=
  ⟨fun _ => SendOutcome.gone, fun _ => false⟩

theorem fanOut_response (reg : Registry) (env : BroadcastEnv) (cid L : String) :
    (fanOut reg env cid L).response =
      if ((((listRoom reg L).filter (fun c => decide (¬ c.connectionId = cid))).filter
          (fun c => decide (env.transport c.connectionId = SendOutcome.gone))).any
          (fun c => ! env.deleteOk c.connectionId)) = true
      then ⟨500, "Failed to broadcast timer update"⟩
      else ⟨200, "Timer update broadcast"⟩ := rfl

theorem fanOut_registry (reg : Registry) (env : BroadcastEnv) (cid L : String) :
    (fanOut reg env cid L).registry = reg.filter (fun x =>
      decide (¬ (x.leagueId = L ∧ x.connectionId ∈
        ((((listRoom reg L).filter (fun c => decide (¬ c.connectionId = cid))).filter
          (fun c => decide (env.transport c.connectionId = SendOutcome.gone))).filter
          (fun c => env.deleteOk c.connectionId)).map (fun c => c.connectionId)))) := rfl

theorem attempts_subset_listRoom (reg : Registry) (env : BroadcastEnv) (cid : String)
    (body : TimerUpdateBody) :
    ∀ a ∈ (timerUpdate reg env cid body).attempts,
      ∃ r ∈ listRoom reg (body.leagueId.getD ""), r.connectionId = a := by
  intro a ha
  by_cases hval : (strFalsy body.leagueId || body.timerState.isNone) = true
  · simp [timerUpdate, hval] at ha
  · have hval' : (strFalsy body.leagueId || body.timerState.isNone) = false := by
      simp only [Bool.not_eq_true] at hval
      exact hval
    cases hf : (listRoom reg (body.leagueId.getD "")).find?
        (fun c => decide (c.connectionId = cid)) with
    | none => simp [timerUpdate, hval', hf] at ha
    | some s =>
      by_cases hcr : s.isCreator = true
      · simp only [timerUpdate, hval', Bool.false_eq_true, if_false, hf, hcr,
          Bool.not_true, Bool.false_eq_true, if_false, fanOut, List.mem_map,
          List.mem_filter, decide_eq_true_eq] at ha
        obtain ⟨c, ⟨hcm, _⟩, hceq⟩ := ha
        exact ⟨c, hcm, hceq⟩
      · have hcr' : s.isCreator = false := by simpa using hcr
        simp [timerUpdate, hval', hf, hcr'] at ha

/-! ### C3: gone endpoints are pruned and never targeted again -/

/-- C3: if a creator-originated broadcast finds that delivery to a
non-originator endpoint `E` reports 410 and the store delete succeeds, then
`E`'s record is absent from the room listing immediately afterwards, and no
subsequent broadcast in that room attempts delivery to `E`. -/
theorem timerUpdate_prunes_gone (reg : Registry) (env : BroadcastEnv) (cid L : String)
    (ts : TimerState) (s E : ConnectionRecord) (hL : L ≠ "")
    (hfind : (listRoom reg L).find? (fun c => decide (c.connectionId = cid)) = some s)
    (hc : s.isCreator = true)
    (hE : E ∈ listRoom reg L) (hne : E.connectionId ≠ cid)
    (hgone : env.transport E.connectionId = SendOutcome.gone)
    (hdel : env.deleteOk E.connectionId = true) :
    (∀ r ∈ listRoom (timerUpdate reg env cid ⟨some L, some ts⟩).registry L,
        r.connectionId ≠ E.connectionId) ∧
    (∀ env' : BroadcastEnv, ∀ cid' : String, ∀ body' : TimerUpdateBody,
        body'.leagueId = some L →
        E.connectionId ∉
          (timerUpdate (timerUpdate reg env cid ⟨some L, some ts⟩).registry
            env' cid' body').attempts) := by
  rw [timerUpdate_creator reg env cid L ts s hL hfind hc]
  have hEp : E.connectionId ∈
      ((((listRoom reg L).filter (fun c => decide (¬ c.connectionId = cid))).filter
        (fun c => decide (env.transport c.connectionId = SendOutcome.gone))).filter
        (fun c => env.deleteOk c.connectionId)).map (fun c => c.connectionId) := by
    simp only [List.mem_map, List.mem_filter, decide_eq_true_eq]
    exact ⟨E, ⟨⟨⟨hE, hne⟩, hgone⟩, hdel⟩, rfl⟩
  have h1 : ∀ r ∈ listRoom (fanOut reg env cid L).registry L,
      r.connectionId ≠ E.connectionId := by
    intro r hr
    rw [mem_listRoom] at hr
    obtain ⟨hr1, hrl⟩ := hr
    simp only [fanOut, List.mem_filter, decide_eq_true_eq] at hr1
    obtain ⟨_, hr2⟩ := hr1
    intro hrE
    exact hr2 ⟨hrl, by rw [hrE]; exact hEp⟩
  refine ⟨h1, ?_⟩
  intro env' cid' body' hbody hmem
  obtain ⟨r, hr, hreq⟩ :=
    attempts_subset_listRoom (fanOut reg env cid L).registry env' cid' body' _ hmem
  rw [hbody] at hr
  exact h1 r hr hreq

/-- C3 witness: in the three-member room where delivery to `C3` reports
410, after the broadcast `C3`'s record is gone from the listing and a
follow-up broadcast never attempts delivery to `C3`. -/
theorem timerUpdate_prunes_gone_witness :
    memberRec2 ∉ listRoom (timerUpdate [creatorRec, memberRec, memberRec2] goneC3Env
        "C1" ⟨some "abc123", some tsSample⟩).registry "abc123" ∧
    "C3" ∉ (timerUpdate (timerUpdate [creatorRec, memberRec, memberRec2] goneC3Env
        "C1" ⟨some "abc123", some tsSample⟩).registry okEnv "C1"
        ⟨some "abc123", some tsSample⟩).attempts := by
  have h := timerUpdate_prunes_gone [creatorRec, memberRec, memberRec2] goneC3Env
    "C1" "abc123" tsSample creatorRec memberRec2 (by decide) (by decide) (by decide)
    (by decide) (by decide) (by decide) (by decide)
  exact ⟨fun hmem => h.1 memberRec2 hmem rfl,
    h.2 okEnv "C1" ⟨some "abc123", some tsSample⟩ rfl⟩

/-! ### C6: transient failures are isolated -/

/-- C6: when the broadcast is authorized and every 410 prune's delete
succeeds, a transient delivery failure to one target does not prevent any
other target from being attempted — the attempts are still exactly the
non-originator records — and the call still returns the 200 success
response. -/
theorem timerUpdate_transient_isolated (reg : Registry) (env : BroadcastEnv)
    (cid L : String) (ts : TimerState) (s t : ConnectionRecord) (hL : L ≠ "")
    (hfind : (listRoom reg L).find? (fun c => decide (c.connectionId = cid)) = some s)
    (hc : s.isCreator = true)
    (ht : t ∈ listRoom reg L) (htne : t.connectionId ≠ cid)
    (htr : env.transport t.connectionId = SendOutcome.transient)
    (hdel : ∀ c ∈ listRoom reg L, env.transport c.connectionId = SendOutcome.gone →
      env.deleteOk c.connectionId = true) :
    (timerUpdate reg env cid ⟨some L, some ts⟩).response =
      ⟨200, "Timer update broadcast"⟩ ∧
    (timerUpdate reg env cid ⟨some L, some ts⟩).attempts =
      ((listRoom reg L).filter (fun c => decide (¬ c.connectionId = cid))).map
        (fun c => c.connectionId) := by
  rw [timerUpdate_creator reg env cid L ts s hL hfind hc]
  have hpf : ((((listRoom reg L).filter (fun c => decide (¬ c.connectionId = cid))).filter
      (fun c => decide (env.transport c.connectionId = SendOutcome.gone))).any
      (fun c => ! env.deleteOk c.connectionId)) = false := by
    refine List.any_eq_false.mpr ?_
    intro c hcmem
    rw [List.mem_filter] at hcmem
    obtain ⟨hc1, hcg⟩ := hcmem
    rw [List.mem_filter] at hc1
    obtain ⟨hcl, _⟩ := hc1
    rw [decide_eq_true_eq] at hcg
    rw [hdel c hcl hcg]
    simp
  have hne500 : ¬ ((((listRoom reg L).filter
      (fun c => decide (¬ c.connectionId = cid))).filter
      (fun c => decide (env.transport c.connectionId = SendOutcome.gone))).any
      (fun c => ! env.deleteOk c.connectionId) = true) := by
    rw [hpf]
    exact Bool.false_ne_true
  exact ⟨by rw [fanOut_response, if_neg hne500], rfl⟩

/-- C6 witness: in the three-member room where delivery to `C2` fails
transiently, `C3` is still attempted and the call returns 200. -/
theorem timerUpdate_transient_isolated_witness :
    (timerUpdate [creatorRec, memberRec, memberRec2] transientC2Env "C1"
        ⟨some "abc123", some tsSample⟩).response = ⟨200, "Timer update broadcast"⟩ ∧
    (timerUpdate [creatorRec, memberRec, memberRec2] transientC2Env "C1"
        ⟨some "abc123", some tsSample⟩).attempts = ["C2", "C3"] := by
  have h := timerUpdate_transient_isolated [creatorRec, memberRec, memberRec2]
    transientC2Env "C1" "abc123" tsSample creatorRec memberRec (by decide) (by decide)
    (by decide) (by decide) (by decide) (by decide) (by decide)
  exact ⟨h.1, by rw [h.2]; rfl⟩

/-! ### C7: a failed prune fails the whole broadcast (corrected) -/

/-- C7 counterexample: in a concrete room where delivery to `C2` reports
410 and the store delete of `C2` fails, the broadcast call returns the 500
failure response — it does not succeed as the claim states. -/
theorem timerUpdate_pruneFailure_cex :
    (timerUpdate [creatorRec, memberRec] goneBadDeleteEnv "C1"
        ⟨some "abc123", some tsSample⟩).response =
      ⟨500, "Failed to broadcast timer update"⟩ ∧
    (timerUpdate [creatorRec, memberRec] goneBadDeleteEnv "C1"
        ⟨some "abc123", some tsSample⟩).response.statusCode ≠ 200 := by
  decide

/-- C7 amended: when a delivery reports 410 and the subsequent registry
delete fails with a store error, the rejection propagates through the
joined promise and the enclosing broadcast call fails with the 500
response instead of succeeding. -/
theorem timerUpdate_pruneFailure_fails (reg : Registry) (env : BroadcastEnv)
    (cid L : String) (ts : TimerState) (s t : ConnectionRecord) (hL : L ≠ "")
    (hfind : (listRoom reg L).find? (fun c => decide (c.connectionId = cid)) = some s)
    (hc : s.isCreator = true)
    (ht : t ∈ listRoom reg L) (htne : t.connectionId ≠ cid)
    (hgone : env.transport t.connectionId = SendOutcome.gone)
    (hdel : env.deleteOk t.connectionId = false) :
    (timerUpdate reg env cid ⟨some L, some ts⟩).response =
      ⟨500, "Failed to broadcast timer update"⟩ := by
  rw [timerUpdate_creator reg env cid L ts s hL hfind hc]
  have hpf : ((((listRoom reg L).filter (fun c => decide (¬ c.connectionId = cid))).filter
      (fun c => decide (env.transport c.connectionId = SendOutcome.gone))).any
      (fun c => ! env.deleteOk c.connectionId)) = true := by
    refine List.any_eq_true.mpr ⟨t, ?_, ?_⟩
    · rw [List.mem_filter]
      refine ⟨?_, by rw [decide_eq_true_eq]; exact hgone⟩
      rw [List.mem_filter]
      exact ⟨ht, by rw [decide_eq_true_eq]; exact htne⟩
    · rw [hdel]
      rfl
  rw [fanOut_response, if_pos hpf]

/-- C7 amended witness: the concrete failed-prune scenario returns the 500
response. -/
theorem timerUpdate_pruneFailure_fails_witness :
    (timerUpdate [creatorRec, memberRec] goneBadDeleteEnv "C1"
        ⟨some "abc123", some tsSample⟩).response =
      ⟨500, "Failed to broadcast timer update"⟩ :=
  timerUpdate_pruneFailure_fails [creatorRec, memberRec] goneBadDeleteEnv "C1" "abc123"
    tsSample creatorRec memberRec (by decide) (by decide) (by decide) (by decide)
    (by decide) (by decide) (by decide)

/-! ### C10: frame condition of a broadcast -/

/-- C10: a broadcast never creates or modifies a registry record — the
resulting registry is a sublist of the original — and every record it
removes is one whose delivery reported 410 and which is not the
originator's; records of the originator and of targets whose delivery
succeeded or failed transiently survive unchanged. -/
theorem timerUpdate_frame (reg : Registry) (env : BroadcastEnv) (cid : String)
    (body : TimerUpdateBody) :
    (timerUpdate reg env cid body).registry.Sublist reg ∧
    ∀ r, r ∈ reg → r ∉ (timerUpdate reg env cid body).registry →
      env.transport r.connectionId = SendOutcome.gone ∧ r.connectionId ≠ cid := by
  by_cases hval : (strFalsy body.leagueId || body.timerState.isNone) = true
  · have heq : (timerUpdate reg env cid body).registry = reg := by
      simp [timerUpdate, hval]
    rw [heq]
    exact ⟨List.Sublist.refl reg, fun r hr hrn => absurd hr hrn⟩
  · have hval' : (strFalsy body.leagueId || body.timerState.isNone) = false := by
      simp only [Bool.not_eq_true] at hval
      exact hval
    cases hf : (listRoom reg (body.leagueId.getD "")).find?
        (fun c => decide (c.connectionId = cid)) with
    | none =>
      have heq : (timerUpdate reg env cid body).registry = reg := by
        simp [timerUpdate, hval', hf]
      rw [heq]
      exact ⟨List.Sublist.refl reg, fun r hr hrn => absurd hr hrn⟩
    | some s =>
      by_cases hcr : s.isCreator = true
      · have heq : timerUpdate reg env cid body =
            fanOut reg env cid (body.leagueId.getD "") := by
          simp [timerUpdate, hval', hf, hcr]
        rw [heq]
        constructor
        · exact List.filter_sublist reg
        · intro r hr hrn
          rw [fanOut_registry, List.mem_filter] at hrn
          have h2 := not_not.mp (fun hcon => hrn ⟨hr, decide_eq_true_eq.mpr hcon⟩)
          obtain ⟨hrl, hrp⟩ := h2
          obtain ⟨c, hcmem, hceq⟩ := List.mem_map.mp hrp
          rw [List.mem_filter] at hcmem
          obtain ⟨hc1, hcd⟩ := hcmem
          rw [List.mem_filter] at hc1
          obtain ⟨hc2, hcg⟩ := hc1
          rw [List.mem_filter] at hc2
          obtain ⟨hcm, hcnc⟩ := hc2
          rw [decide_eq_true_eq] at hcg hcnc
          rw [← hceq]
          exact ⟨hcg, hcnc⟩
      · have hcr' : s.isCreator = false := by simpa using hcr
        have heq : (timerUpdate reg env cid body).registry = reg := by
          simp [timerUpdate, hval', hf, hcr']
        rw [heq]
        exact ⟨List.Sublist.refl reg, fun r hr hrn => absurd hr hrn⟩

/-- C10 witness: in the concrete 410-to-`C3` scenario, the removed record
`C3` indeed had a gone delivery and is not the originator. -/
theorem timerUpdate_frame_witness :
    goneC3Env.transport memberRec2.connectionId = SendOutcome.gone ∧
    memberRec2.connectionId ≠ "C1" :=
  (timerUpdate_frame [creatorRec, memberRec, memberRec2] goneC3Env "C1"
      ⟨some "abc123", some tsSample⟩).2 memberRec2 (by decide) (by decide)

/-! ### C8: explicit disconnect -/

/-- C8 counterexample: the `$disconnect` handler deletes nothing — after an
explicit disconnect of endpoint `C1`, its record is still in the registry
and still listed in its room, contradicting the claim that disconnect
deletes the endpoint's connection record. -/
theorem disconnect_keeps_record_cex :
    (disconnect [creatorRec] "C1").2 = [creatorRec] ∧
    creatorRec ∈ listRoom (disconnect [creatorRec] "C1").2 "abc123" := by
  exact ⟨rfl, by decide⟩

/-- C8 amended: the `$disconnect` handler returns 200 and leaves the
registry unchanged; a connection record is removed only by the pruning done
on failed delivery, never by explicit disconnect. -/
theorem disconnect_returns_ok_registry_unchanged (reg : Registry) (cid : String) :
    (disconnect reg cid).1 = ⟨200, "Disconnected"⟩ ∧ (disconnect reg cid).2 = reg :=
  ⟨rfl, rfl⟩

/-! ### C9: join is an idempotent upsert -/

theorem find?_keyReplace (l : List ConnectionRecord) (r : ConnectionRecord)
    (h : l.any (fun x => decide (x.leagueId = r.leagueId ∧ x.connectionId = r.connectionId)) = true) :
    (l.map (fun x =>
      if x.leagueId = r.leagueId ∧ x.connectionId = r.connectionId then r else x)).find?
      (fun x => decide (x.leagueId = r.leagueId ∧ x.connectionId = r.connectionId)) = some r := by
  induction l with
  | nil => simp at h
  | cons x xs ih =>
    by_cases hx : x.leagueId = r.leagueId ∧ x.connectionId = r.connectionId
    · rw [List.map_cons, if_pos hx]
      rw [List.find?_cons_of_pos _ (by simp)]
    · rw [List.map_cons, if_neg hx]
      rw [List.find?_cons_of_neg _ (by simpa using hx)]
      apply ih
      rw [List.any_cons, decide_eq_false hx, Bool.false_or] at h
      exact h

theorem find?_putRecord (reg : Registry) (r : ConnectionRecord) :
    (putRecord reg r).find?
      (fun x => decide (x.leagueId = r.leagueId ∧ x.connectionId = r.connectionId)) = some r := by
  unfold putRecord
  split
  case isTrue h => exact find?_keyReplace reg r h
  case isFalse h =>
    rw [List.find?_append]
    have h1 : reg.find?
        (fun x => decide (x.leagueId = r.leagueId ∧ x.connectionId = r.connectionId)) = none := by
      rw [List.find?_eq_none]
      intro x hx hpx
      exact h (List.any_eq_true.mpr ⟨x, hx, hpx⟩)
    rw [h1]
    simp

theorem putRecord_of_any (reg : Registry) (r : ConnectionRecord)
    (h : reg.any (fun x =>
      decide (x.leagueId = r.leagueId ∧ x.connectionId = r.connectionId)) = true) :
    putRecord reg r = reg.map (fun x =>
      if x.leagueId = r.leagueId ∧ x.connectionId = r.connectionId then r else x) := by
  unfold putRecord
  rw [if_pos h]

theorem filter_league_keyReplace_length (l : List ConnectionRecord) (r : ConnectionRecord) :
    ((l.map (fun x =>
      if x.leagueId = r.leagueId ∧ x.connectionId = r.connectionId then r else x)).filter
      (fun x => decide (x.leagueId = r.leagueId))).length
      = (l.filter (fun x => decide (x.leagueId = r.leagueId))).length := by
  induction l with
  | nil => rfl
  | cons x xs ih =>
    by_cases hx : x.leagueId = r.leagueId ∧ x.connectionId = r.connectionId
    · rw [List.map_cons, if_pos hx, List.filter_cons, List.filter_cons]
      have h1 : (decide (r.leagueId = r.leagueId)) = true := by simp
      have h2 : (decide (x.leagueId = r.leagueId)) = true := by simp [hx.1]
      rw [h1, h2]
      simp [ih]
    · rw [List.map_cons, if_neg hx, List.filter_cons, List.filter_cons]
      by_cases hxl : x.leagueId = r.leagueId
      · have h2 : (decide (x.leagueId = r.leagueId)) = true := by simp [hxl]
        rw [h2]
        simp [ih]
      · have h2 : (decide (x.leagueId = r.leagueId)) = false := by simp [hxl]
        rw [h2]
        simp [ih]

theorem find?_listRoom (reg : Registry) (L cid : String) :
    (listRoom reg L).find? (fun c => decide (c.connectionId = cid)) =
      reg.find? (fun c => decide (c.leagueId = L ∧ c.connectionId = cid)) := by
  unfold listRoom
  rw [List.find?_filter]
  congr 1
  funext c
  by_cases h1 : c.leagueId = L <;> by_cases h2 : c.connectionId = cid <;> simp [h1, h2]

/-- C9: `Join` is an idempotent upsert keyed by `(roomId, endpointId)`:
joining twice with the same `(leagueId, connectionId)` leaves the room
listing exactly as large as after a single join, and the record found for
that endpoint afterwards carries the `sessionId` and `isCreator` of the
latest join. -/
theorem joinLeague_idempotent (reg : Registry) (cid L s1 s2 : String) (b1 b2 : Bool)
    (t1 t2 : String) (hL : L ≠ "") (hs1 : s1 ≠ "") (hs2 : s2 ≠ "") :
    (listRoom (joinLeague (joinLeague reg cid ⟨some L, some s1, some b1⟩ t1).2 cid
        ⟨some L, some s2, some b2⟩ t2).2 L).length =
      (listRoom (joinLeague reg cid ⟨some L, some s1, some b1⟩ t1).2 L).length ∧
    (listRoom (joinLeague (joinLeague reg cid ⟨some L, some s1, some b1⟩ t1).2 cid
        ⟨some L, some s2, some b2⟩ t2).2 L).find?
        (fun c => decide (c.connectionId = cid)) =
      some ⟨L, cid, s2, b2, t2⟩ := by
  have hv1 : (strFalsy (some L) || strFalsy (some s1)) = false := by
    simp [strFalsy, hL, hs1]
  have hv2 : (strFalsy (some L) || strFalsy (some s2)) = false := by
    simp [strFalsy, hL, hs2]
  have hreg1 : (joinLeague reg cid ⟨some L, some s1, some b1⟩ t1).2 =
      putRecord reg ⟨L, cid, s1, b1, t1⟩ := by
    simp [joinLeague, hv1]
  have hreg2 : (joinLeague (joinLeague reg cid ⟨some L, some s1, some b1⟩ t1).2 cid
      ⟨some L, some s2, some b2⟩ t2).2 =
      putRecord (putRecord reg ⟨L, cid, s1, b1, t1⟩) ⟨L, cid, s2, b2, t2⟩ := by
    rw [hreg1]
    simp [joinLeague, hv2]
  have hmem1 : (⟨L, cid, s1, b1, t1⟩ : ConnectionRecord) ∈
      putRecord reg ⟨L, cid, s1, b1, t1⟩ :=
    List.mem_of_find?_eq_some (find?_putRecord reg ⟨L, cid, s1, b1, t1⟩)
  have hany : (putRecord reg ⟨L, cid, s1, b1, t1⟩).any (fun x =>
      decide (x.leagueId = (⟨L, cid, s2, b2, t2⟩ : ConnectionRecord).leagueId ∧
        x.connectionId = (⟨L, cid, s2, b2, t2⟩ : ConnectionRecord).connectionId)) = true :=
    List.any_eq_true.mpr ⟨⟨L, cid, s1, b1, t1⟩, hmem1, by simp⟩
  constructor
  · rw [hreg2, hreg1, putRecord_of_any _ _ hany]
    exact filter_league_keyReplace_length (putRecord reg ⟨L, cid, s1, b1, t1⟩)
      ⟨L, cid, s2, b2, t2⟩
  · rw [hreg2, find?_listRoom]
    exact find?_putRecord (putRecord reg ⟨L, cid, s1, b1, t1⟩) ⟨L, cid, s2, b2, t2⟩

/-- C9 witness: joining room `abc123` twice as `C1` — first with session
`S1` as creator, then with session `S1b` as non-creator — leaves one
record, carrying the latest session and creator flag. -/
theorem joinLeague_idempotent_witness :
    (listRoom (joinLeague (joinLeague [] "C1" ⟨some "abc123", some "S1", some true⟩ "t1").2
        "C1" ⟨some "abc123", some "S1b", some false⟩ "t2").2 "abc123").length =
      (listRoom (joinLeague [] "C1" ⟨some "abc123", some "S1", some true⟩ "t1").2
        "abc123").length ∧
    (listRoom (joinLeague (joinLeague [] "C1" ⟨some "abc123", some "S1", some true⟩ "t1").2
        "C1" ⟨some "abc123", some "S1b", some false⟩ "t2").2 "abc123").find?
        (fun c => decide (c.connectionId = "C1")) =
      some ⟨"abc123", "C1", "S1b", false, "t2"⟩ :=
  joinLeague_idempotent [] "C1" "abc123" "S1" "S1b" true false "t1" "t2"
    (by decide) (by decide) (by decide)

end PolnServer
